import Mathlib

/-!
Verification of the yxorp reverse proxy (pufmat/yxorp) against its
natural-language specification.

The definitions below are a shallow embedding of the request-routing and
forwarding pipeline of `src/proxy.rs` (the current, hyper-1.x `Proxy`
service — the file `src/server.rs` additionally contains a stale
hyper-0.14 duplicate of the service, but the reload task and `run` entry
point live there and are embedded from there), together with the wildcard
matcher of `src/config.rs` and the hot-reload loop of `src/server.rs`.

Conventions of the embedding:
* Header values are byte lists (`HV := List Nat`), as in `http::HeaderValue`.
* Header names are compared case-insensitively (`nameEq`), as
  `http::HeaderName` normalises all names to lower case.
* Machine strings are Lean `String`s; `strBytes` gives their bytes
  (adequate for the ASCII data handled here).
* Fallible operations return `Option`; a Rust `unwrap` panic on a missing
  value is modelled as `none` propagating to the result.
-/

/-- Header value: the byte string stored in an `http::HeaderValue`. -/
abbrev HV := List Nat

/-- Bytes of a Lean string, one `Nat` per character code
(faithful for the ASCII strings the proxy manipulates). -/
def strBytes (s : String) : HV :=
  s.data.map Char.toNat

/-- Visible-ASCII test used by `HeaderValue::to_str` in the `http` crate:
a byte decodes iff it is in `32..127` or is a horizontal tab. -/
def isVisibleAscii (b : Nat) : Bool :=
  (32 ≤ b && b < 127) || b == 9

/-- Embedding of `HeaderValue::to_str`: `some` of the decoded string when
every byte is visible ASCII, `none` otherwise. -/
def toStr (v : HV) : Option String :=
  if v.all isVisibleAscii then some (String.mk (v.map Char.ofNat)) else none

/-- Byte validity test of `HeaderValue::from_str` (`str::parse::<HeaderValue>`):
every byte must be `≥ 32` and `≠ 127`, or a horizontal tab. -/
def isValidHVByte (b : Nat) : Bool :=
  (32 ≤ b && b != 127) || b == 9

/-- Whether a string parses as an `http::HeaderValue`
(`host.parse::<HeaderValue>()` in `proxy.rs`). -/
def headerValueOk (s : String) : Bool :=
  (strBytes s).all isValidHVByte

/-- Header map: entries in insertion order, as iterated by
`http::HeaderMap`. -/
abbrev Headers := List (String × HV)

/-- ASCII lower-casing of one character (header names are ASCII). -/
def lowerChar (c : Char) : Char :=
  if 65 ≤ c.toNat && c.toNat ≤ 90 then Char.ofNat (c.toNat + 32) else c

/-- ASCII lower-casing of a string, as a character list. -/
def lowerStr (s : String) : List Char :=
  s.data.map lowerChar

/-- Case-insensitive header-name equality: `http::HeaderName` normalises
names to lower case, so `"Keep-Alive"` and `"keep-alive"` denote the same
header. -/
def nameEq (a b : String) : Bool :=
  lowerStr a == lowerStr b

/-- Embedding of `HeaderMap::get_all`: every value stored under the name,
in insertion order. -/
def getAllH (h : Headers) (n : String) : List HV :=
  (h.filter (fun p => nameEq p.1 n)).map Prod.snd

/-- Embedding of `HeaderMap::get`: the first value stored under the name. -/
def getFirstH (h : Headers) (n : String) : Option HV :=
  (h.find? (fun p => nameEq p.1 n)).map Prod.snd

/-- Embedding of `HeaderMap::remove`: drop every entry stored under the
name. -/
def removeH (h : Headers) (n : String) : Headers :=
  h.filter (fun p => !nameEq p.1 n)

/-- Embedding of `HeaderMap::insert`: replace every entry stored under the
name with the single given value. -/
def insertH (h : Headers) (n : String) (v : HV) : Headers :=
  removeH h n ++ [(n, v)]

/-- URI of a request: the authority and path-and-query components used by
the proxy (`http::Uri`). -/
structure Uri where
  authority : Option String
  pathAndQuery : Option String
deriving DecidableEq, Repr

/-- HTTP protocol versions relevant to the proxy. -/
inductive Version
  | http10
  | http11
  | h2
deriving DecidableEq, Repr

/-- Body of a request or response: an inbound stream (`Incoming` /
`Body`), the empty body (`Empty`), or a buffered string (`Full`). -/
inductive BodyKind
  | incoming
  | empty
  | full (s : String)
deriving DecidableEq, Repr

/-- An HTTP request as seen by `Proxy::call`. -/
structure Request where
  method : String
  uri : Uri
  version : Version
  headers : Headers
  body : BodyKind
deriving DecidableEq, Repr

/-- An HTTP response as produced by the proxy or the backend. -/
structure Response where
  status : Nat
  version : Version
  headers : Headers
  body : BodyKind
deriving DecidableEq, Repr

/-- Wildcard matcher of the `wildmatch` crate used by `RouteConfig::host`:
`*` matches any run of characters (including the empty run), `?` matches
exactly one character, every other character matches itself literally;
the match is case-sensitive and anchored at both ends. -/
def wildMatch : List Char → List Char → Bool
  | [], cs => cs.isEmpty
  | '*' :: ps, cs => cs.tails.any (fun t => wildMatch ps t)
  | '?' :: _, [] => false
  | '?' :: ps, _ :: cs => wildMatch ps cs
  | _ :: _, [] => false
  | p :: ps, c :: cs => p == c && wildMatch ps cs

/-- One route of the configuration (`RouteConfig` in `config.rs`): a
wildcard host pattern and a backend socket address (kept as its textual
form, the proxy never inspects it). -/
structure RouteConfig where
  host : String
  address : String
deriving DecidableEq, Repr

/-- The live dynamic configuration (`DynamicConfig` in `config.rs`). -/
structure DynamicConfig where
  cert_file : String
  key_file : String
  routes : List RouteConfig
deriving DecidableEq, Repr

/-- Effective host string of a request, from `Proxy::call` in `proxy.rs`:
the URI authority when present, else the `Host` header decoded with
`to_str` (`none` when undecodable), else the empty string when the
header is absent. -/
def hostString (req : Request) : Option String :=
  match req.uri.authority with
  | some a => some a
  | none =>
    match getFirstH req.headers "host" with
    | none => some ""
    | some v => toStr v

/-- Embedding of `itertools::all_equal_value`: `some v` when the list is
nonempty and all elements equal its head, `none` otherwise (empty list or
two distinct elements). -/
def allEqualValue (vals : List HV) : Option HV :=
  match vals with
  | [] => none
  | v :: rest => if rest.all (· == v) then some v else none

/-- The route selected for a host: first route of the table whose pattern
matches, as in `routes.iter().find(|route| route.host.matches(host))`. -/
def findRoute (cfg : DynamicConfig) (host : String) : Option RouteConfig :=
  cfg.routes.find? (fun r => wildMatch r.host.data host.data)

/-- Disposition chosen by the classifier for one request. -/
inductive Disposition
  | redirect (host : String)
  | notFound
  | forward (host : String) (address : String)
  | upgrade (host : String) (address : String)
deriving DecidableEq, Repr

/-- Whether a disposition is the upgrade-tunnel one. -/
def isUpgradeDisposition : Disposition → Bool
  | .upgrade _ _ => true
  | _ => false

/-- The request classifier of `Proxy::call` (`proxy.rs`): host derivation,
plaintext redirect, first-match route lookup, and the all-equal
`Upgrade: websocket` check selecting between upgrade and forward. -/
def classify (cfg : DynamicConfig) (secure : Bool) (req : Request) : Disposition :=
  match hostString req with
  | none => .notFound
  | some host =>
    if !secure then .redirect host
    else
      match findRoute cfg host with
      | none => .notFound
      | some route =>
        match allEqualValue (getAllH req.headers "upgrade") with
        | some v =>
          if v == strBytes "websocket" then .upgrade host route.address
          else .forward host route.address
        | none => .forward host route.address

/-- The `404` responder (`Proxy::not_found` in `proxy.rs`): status 404
with the status text as buffered body. -/
def not_found : Response :=
  { status := 404, version := .http11, headers := [], body := .full "404 Not Found" }

/-- The `Location` value assembled by `Proxy::redirect_to_https`:
`"https://" + host + path_and_query` with the empty string standing in
for an absent path-and-query. -/
def redirectLocation (req : Request) (host : String) : String :=
  "https://" ++ host ++ (req.uri.pathAndQuery.getD "")

/-- Embedding of `Proxy::redirect_to_https` (`proxy.rs`): a 301 response
with empty body and the assembled `Location` header appended; `none` when
the assembled value does not parse as a header value (the `?` turns this
into a connection-level error). -/
def redirect_to_https (req : Request) (host : String) : Option Response :=
  let location := redirectLocation req host
  if headerValueOk location then
    some { status := 301, version := .http11,
           headers := [("location", strBytes location)], body := .empty }
  else none

/-- Byte value of the coalesced `Cookie` header: the original values in
order, joined by the two-byte separator `"; "`. -/
def joinBytes (vs : List HV) : HV :=
  (vs.intersperse [59, 32]).flatten

/-- Embedding of `Proxy::merge_cookie_headers` (`proxy.rs`): replace all
`Cookie` entries with a single entry holding the joined value (the join
of zero values is the empty byte string). -/
def merge_cookie_headers (h : Headers) : Headers :=
  insertH h "cookie" (joinBytes (getAllH h "cookie"))

/-- Header treatment shared by forward and upgrade: overwrite `Host` with
the matched host string when it parses as a header value, else leave the
headers unchanged (`if let Ok(value) = host.parse()` in `proxy.rs`). -/
def hostRewrite (h : Headers) (host : String) : Headers :=
  if headerValueOk host then insertH h "host" (strBytes host) else h

/-- Embedding of the request rewriting of `Proxy::forward` (`proxy.rs`):
force HTTP/1.1, keep only the path-and-query in the URI (`none` models
the `unwrap` panic when the URI has none), strip `Keep-Alive`,
`Connection` and `Upgrade`, overwrite `Host`, and coalesce cookies. -/
def forwardRewrite (req : Request) (host : String) : Option Request :=
  match req.uri.pathAndQuery with
  | none => none
  | some pq =>
    let headers := removeH (removeH (removeH req.headers "keep-alive") "connection") "upgrade"
    let headers := hostRewrite headers host
    let headers := merge_cookie_headers headers
    some { method := req.method
           uri := { authority := none, pathAndQuery := some pq }
           version := .http11
           headers := headers
           body := req.body }

/-- Embedding of the request rewriting of `Proxy::upgrade` (`proxy.rs`):
fresh empty-bodied request copying the inbound method and headers, forced
to HTTP/1.1 with only the path-and-query (`none` models the `unwrap`
panic), `Keep-Alive` removed, `Connection: Upgrade` inserted, `Host`
overwritten, cookies coalesced. -/
def upgradeRewrite (req : Request) (host : String) : Option Request :=
  match req.uri.pathAndQuery with
  | none => none
  | some pq =>
    let headers := removeH req.headers "keep-alive"
    let headers := insertH headers "connection" (strBytes "Upgrade")
    let headers := hostRewrite headers host
    let headers := merge_cookie_headers headers
    some { method := req.method
           uri := { authority := none, pathAndQuery := some pq }
           version := .http11
           headers := headers
           body := .empty }

/-- Embedding of the response constructed by `Proxy::upgrade` from the
backend response: same status, version and headers, empty body. -/
def upgradeResponse (backend : Response) : Response :=
  { status := backend.status, version := backend.version,
    headers := backend.headers, body := .empty }

/-- Result of one invocation of the `Proxy` service, up to the first
network operation: an immediate response, an immediate header error
(invalid `Location`), an outbound request dispatched to a backend for
forwarding or upgrading, or a panic from the `path_and_query` unwrap. -/
inductive CallResult
  | response (r : Response)
  | headerError
  | forwardTo (address : String) (outReq : Request)
  | upgradeTo (address : String) (outReq : Request)
  | panicked
deriving DecidableEq, Repr

/-- Full embedding of `Proxy::call` (`proxy.rs`): derive the host string,
redirect on the plaintext side, look up the first matching route, and
dispatch to upgrade or forward after the all-equal `Upgrade: websocket`
check; otherwise answer 404. -/
def call (cfg : DynamicConfig) (secure : Bool) (req : Request) : CallResult :=
  match hostString req with
  | none => .response not_found
  | some host =>
    if !secure then
      match redirect_to_https req host with
      | some r => .response r
      | none => .headerError
    else
      match findRoute cfg host with
      | none => .response not_found
      | some route =>
        match allEqualValue (getAllH req.headers "upgrade") with
        | some v =>
          if v == strBytes "websocket" then
            match upgradeRewrite req host with
            | some out => .upgradeTo route.address out
            | none => .panicked
          else
            match forwardRewrite req host with
            | some out => .forwardTo route.address out
            | none => .panicked
        | none =>
          match forwardRewrite req host with
          | some out => .forwardTo route.address out
          | none => .panicked

/-- Snapshot provenance: which configuration load produced the live
`DynamicConfig` (`dynLoad`) and the live TLS `ServerConfig` (`tlsLoad`).
The two halves sit behind two independent `RwLock`s in `server.rs`. -/
structure SnapshotState where
  dynLoad : Nat
  tlsLoad : Nat
deriving DecidableEq, Repr

/-- Outcome of one reload attempt: `DynamicConfig::load` fails,
`load_server_config` fails after a successful config load, or both
steps succeed. -/
inductive ReloadOutcome
  | dynFail
  | tlsFail
  | success
deriving DecidableEq, Repr

/-- States observable by concurrent readers during one iteration of the
reload loop in `server.rs` (lines 82–104), for the attempt numbered `n`:
the loop first commits the new dynamic config under its lock
(`*dynamic_config.write().unwrap() = new_dynamic_config`) and only then,
if `load_server_config` succeeds, commits the new TLS config under the
other lock; a failure at either step `continue`s, leaving everything
already committed in place. -/
def reloadStates (s : SnapshotState) (n : Nat) : ReloadOutcome → List SnapshotState
  | .dynFail => [s]
  | .tlsFail => [s, { dynLoad := n, tlsLoad := s.tlsLoad }]
  | .success => [s, { dynLoad := n, tlsLoad := s.tlsLoad }, { dynLoad := n, tlsLoad := n }]

/-- Snapshot left in place after the reload attempt finishes. -/
def reloadFinal (s : SnapshotState) (n : Nat) (o : ReloadOutcome) : SnapshotState :=
  (reloadStates s n o).getLastD s

example : classify ⟨"c", "k", [⟨"*", "a1"⟩]⟩ true
    ⟨"GET", ⟨none, some "/"⟩, .http11,
      [("host", strBytes "x"), ("upgrade", strBytes "websocket")], .incoming⟩
    = .upgrade "x" "a1" := by decide

example : classify ⟨"c", "k", [⟨"*", "a1"⟩]⟩ true
    ⟨"GET", ⟨none, some "/"⟩, .http11,
      [("host", strBytes "x"), ("upgrade", strBytes "websocket"),
       ("upgrade", strBytes "h2c")], .incoming⟩
    = .forward "x" "a1" := by decide

/-! Helper lemmas about the header-map operations. -/

theorem nameEq_eq_true_iff {n m : String} : nameEq n m = true ↔ lowerStr n = lowerStr m := by
  simp [nameEq]

theorem nameEq_congr {n m : String} (hnm : lowerStr n = lowerStr m) (k : String) :
    nameEq k n = nameEq k m := by
  simp [nameEq, hnm]

theorem getAllH_nil (m : String) : getAllH [] m = [] := rfl

theorem getAllH_cons (p : String × HV) (t : Headers) (m : String) :
    getAllH (p :: t) m = if nameEq p.1 m then p.2 :: getAllH t m else getAllH t m := by
  by_cases hp : nameEq p.1 m <;> simp [getAllH, List.filter, hp]

theorem removeH_cons (p : String × HV) (t : Headers) (n : String) :
    removeH (p :: t) n = if nameEq p.1 n then removeH t n else p :: removeH t n := by
  by_cases hp : nameEq p.1 n <;> simp [removeH, List.filter, hp]

theorem getAllH_append (h1 h2 : Headers) (m : String) :
    getAllH (h1 ++ h2) m = getAllH h1 m ++ getAllH h2 m := by
  simp [getAllH, List.filter_append]

theorem getAllH_removeH_self (h : Headers) {n m : String} (hnm : lowerStr n = lowerStr m) :
    getAllH (removeH h n) m = [] := by
  induction h with
  | nil => rfl
  | cons p t ih =>
    rw [removeH_cons]
    by_cases hp : nameEq p.1 n = true
    · simp [hp, ih]
    · have hm : nameEq p.1 m = false := by
        rw [← nameEq_congr hnm p.1]
        exact Bool.not_eq_true _ ▸ Bool.of_not_eq_true hp
      simp [hp, getAllH_cons, hm, ih]

theorem getAllH_removeH_ne (h : Headers) {n m : String} (hnm : lowerStr n ≠ lowerStr m) :
    getAllH (removeH h n) m = getAllH h m := by
  induction h with
  | nil => rfl
  | cons p t ih =>
    rw [removeH_cons]
    by_cases hp : nameEq p.1 n = true
    · have hm : nameEq p.1 m = false := by
        by_contra hc
        have h1 : lowerStr p.1 = lowerStr n := nameEq_eq_true_iff.mp hp
        have h2 : lowerStr p.1 = lowerStr m :=
          nameEq_eq_true_iff.mp (Bool.of_not_eq_false hc)
        exact hnm (h1 ▸ h2)
      simp [hp, getAllH_cons, hm, ih]
    · by_cases hm : nameEq p.1 m = true <;> simp [hp, getAllH_cons, hm, ih]

theorem getAllH_insertH_self (h : Headers) {n m : String} (v : HV)
    (hnm : lowerStr n = lowerStr m) :
    getAllH (insertH h n v) m = [v] := by
  rw [insertH, getAllH_append, getAllH_removeH_self h hnm]
  simp [getAllH_cons, nameEq_eq_true_iff.mpr hnm, getAllH_nil]

theorem getAllH_insertH_ne (h : Headers) {n m : String} (v : HV)
    (hnm : lowerStr n ≠ lowerStr m) :
    getAllH (insertH h n v) m = getAllH h m := by
  rw [insertH, getAllH_append, getAllH_removeH_ne h hnm]
  have : nameEq n m = false := by
    by_contra hc
    exact hnm (nameEq_eq_true_iff.mp (Bool.of_not_eq_false hc))
  simp [getAllH_cons, this, getAllH_nil]

theorem getAllH_merge_cookie_self (h : Headers) :
    getAllH (merge_cookie_headers h) "cookie" = [joinBytes (getAllH h "cookie")] := by
  rw [merge_cookie_headers, getAllH_insertH_self h _ rfl]

theorem getAllH_merge_cookie_ne (h : Headers) {m : String}
    (hm : lowerStr "cookie" ≠ lowerStr m) :
    getAllH (merge_cookie_headers h) m = getAllH h m := by
  rw [merge_cookie_headers, getAllH_insertH_ne h _ hm]

theorem getAllH_hostRewrite_ne (h : Headers) (host : String) {m : String}
    (hm : lowerStr "host" ≠ lowerStr m) :
    getAllH (hostRewrite h host) m = getAllH h m := by
  rw [hostRewrite]
  by_cases hv : headerValueOk host = true
  · simp only [hv, if_true]
    exact getAllH_insertH_ne h _ hm
  · simp [hv]

theorem getAllH_hostRewrite_self (h : Headers) (host : String)
    (hv : headerValueOk host = true) :
    getAllH (hostRewrite h host) "host" = [strBytes host] := by
  rw [hostRewrite]
  simp only [hv, if_true]
  exact getAllH_insertH_self h _ rfl

/-! Concrete configurations and requests used by witnesses and
counterexamples. -/

/-- Example routing table with a single literal route. -/
def wcfg : DynamicConfig :=
  ⟨"cert.pem", "key.pem", [⟨"example.com", "127.0.0.1:9000"⟩]⟩

/-- Example routing table with a single catch-all route. -/
def wcfg2 : DynamicConfig :=
  ⟨"cert.pem", "key.pem", [⟨"*", "127.0.0.1:9000"⟩]⟩

/-- Request carrying `Upgrade: websocket` plus a disagreeing second
`Upgrade` value. -/
def wreqC1 : Request :=
  { method := "GET", uri := ⟨none, some "/ws"⟩, version := .http11,
    headers := [("host", strBytes "example.com"),
                ("upgrade", strBytes "websocket"),
                ("upgrade", strBytes "h2c")],
    body := .incoming }

/-- Request with no URI authority and an undecodable `Host` header
(byte 200 is not visible ASCII). -/
def badHostReq : Request :=
  { method := "GET", uri := ⟨none, some "/"⟩, version := .http11,
    headers := [("host", [200])], body := .incoming }

/-- Request with no URI authority and no `Host` header at all. -/
def noHostReq : Request :=
  { method := "GET", uri := ⟨none, some "/foo"⟩, version := .http11,
    headers := [], body := .incoming }

/-- C1: on the HTTPS side, for a request whose derived host matches a
route, the classifier returns the Upgrade disposition iff the request has
at least one `Upgrade` header and every value equals the literal
case-sensitive bytes of `websocket`; whenever it does not, the request is
classified Forward to the matched backend. -/
theorem allEqualValue_eq_some_iff (vals : List HV) (w : HV) :
    allEqualValue vals = some w ↔ vals ≠ [] ∧ ∀ v ∈ vals, v = w := by
  cases vals with
  | nil => simp [allEqualValue]
  | cons v rest =>
    simp only [allEqualValue]
    cases hall : rest.all (· == v) with
    | true =>
      have hrest : ∀ x ∈ rest, x = v := by
        intro x hx
        simpa using (List.all_eq_true.mp hall) x hx
      simp only [if_true]
      constructor
      · intro hsome
        have hvw : v = w := by injection hsome
        refine ⟨by simp, ?_⟩
        intro x hx
        rcases List.mem_cons.mp hx with hx | hx
        · exact hx ▸ hvw
        · exact (hrest x hx).trans hvw
      · intro ⟨_, hvals⟩
        exact congrArg some (hvals v (List.mem_cons_self v rest))
    | false =>
      simp only [Bool.false_eq_true, if_false]
      constructor
      · intro hc; cases hc
      · intro ⟨_, hvals⟩
        exfalso
        have : rest.all (· == v) = true := by
          rw [List.all_eq_true]
          intro x hx
          have hxw := hvals x (List.mem_cons_of_mem v hx)
          have hvw := hvals v (List.mem_cons_self v rest)
          simp [hxw, hvw]
        rw [hall] at this
        cases this

theorem C1_upgrade_iff_all_websocket (cfg : DynamicConfig) (req : Request)
    (host : String) (route : RouteConfig)
    (hh : hostString req = some host)
    (hr : findRoute cfg host = some route) :
    (isUpgradeDisposition (classify cfg true req) = true ↔
      (getAllH req.headers "upgrade" ≠ [] ∧
        ∀ v ∈ getAllH req.headers "upgrade", v = strBytes "websocket")) ∧
    (isUpgradeDisposition (classify cfg true req) = false →
      classify cfg true req = .forward host route.address) := by
  cases hav : allEqualValue (getAllH req.headers "upgrade") with
  | none =>
    have hcl : classify cfg true req = .forward host route.address := by
      simp [classify, hh, hr, hav]
    rw [hcl]
    simp only [isUpgradeDisposition]
    constructor
    · constructor
      · intro hc; exact absurd hc (by simp)
      · intro hrhs
        exfalso
        have h2 := (allEqualValue_eq_some_iff (getAllH req.headers "upgrade")
          (strBytes "websocket")).mpr hrhs
        rw [hav] at h2
        cases h2
    · intro _; trivial
  | some v =>
    cases hws : (v == strBytes "websocket") with
    | true =>
      have hveq : v = strBytes "websocket" := by simpa using hws
      have hcl : classify cfg true req = .upgrade host route.address := by
        simp [classify, hh, hr, hav, hws]
      rw [hcl]
      simp only [isUpgradeDisposition]
      constructor
      · constructor
        · intro _
          exact (allEqualValue_eq_some_iff (getAllH req.headers "upgrade")
            (strBytes "websocket")).mp (hveq ▸ hav)
        · intro _; trivial
      · intro hc; exact absurd hc (by simp)
    | false =>
      have hcl : classify cfg true req = .forward host route.address := by
        simp [classify, hh, hr, hav, hws]
      rw [hcl]
      simp only [isUpgradeDisposition]
      constructor
      · constructor
        · intro hc; exact absurd hc (by simp)
        · intro hrhs
          exfalso
          have h2 := (allEqualValue_eq_some_iff (getAllH req.headers "upgrade")
            (strBytes "websocket")).mpr hrhs
          rw [hav] at h2
          have hvw : v = strBytes "websocket" := by injection h2
          rw [hvw] at hws
          simp at hws
      · intro _; trivial

/-- C1 witness: `Upgrade: websocket` together with a disagreeing
`Upgrade: h2c` is classified Forward, not Upgrade. -/
theorem C1_witness :
    classify wcfg true wreqC1 = .forward "example.com" "127.0.0.1:9000" :=
  (C1_upgrade_iff_all_websocket wcfg wreqC1 "example.com"
      ⟨"example.com", "127.0.0.1:9000"⟩ (by decide) (by decide)).2 (by decide)

/-- C2 counterexample: a request with no URI authority whose `Host`
header does not decode as a string derives no host string at all, not the
empty string the claim asserts. -/
theorem C2_counterexample :
    hostString badHostReq ≠ some "" ∧ hostString badHostReq = none := by
  decide

/-- C2 (amended): the effective host string is the URI authority when
present; otherwise it is the empty string when the `Host` header is
absent, and the `to_str` decoding of the `Host` header when present —
which yields no host string at all when the value is undecodable. -/
theorem C2_hostString_cases (req : Request) :
    (∀ a, req.uri.authority = some a → hostString req = some a) ∧
    (req.uri.authority = none → getFirstH req.headers "host" = none →
      hostString req = some "") ∧
    (∀ v, req.uri.authority = none → getFirstH req.headers "host" = some v →
      hostString req = toStr v) := by
  refine ⟨?_, ?_, ?_⟩
  · intro a ha; simp [hostString, ha]
  · intro ha hn; simp [hostString, ha, hn]
  · intro v ha hv; simp [hostString, ha, hv]

/-- C2 witness: the URI authority takes precedence over the `Host`
header. -/
theorem C2_witness :
    hostString ⟨"GET", ⟨some "a.test", some "/"⟩, .http11,
      [("host", strBytes "b.test")], .incoming⟩ = some "a.test" :=
  (C2_hostString_cases _).1 "a.test" rfl

/-- C3 counterexample: a request on the HTTP port with neither URI
authority nor `Host` header is answered with a redirect for the empty
host, not with NotFound. -/
theorem C3_counterexample :
    classify wcfg false noHostReq = .redirect "" ∧
    classify wcfg false noHostReq ≠ .notFound := by
  decide

/-- C3 (amended): a request whose URI has no authority and whose `Host`
header is present but undecodable derives no host string, and its
disposition is NotFound on both ports — never a redirect; a request with
neither authority nor `Host` header, by contrast, derives the empty host
string and is redirected on the HTTP port. -/
theorem C3_undecodable_notFound (cfg : DynamicConfig) (secure : Bool)
    (req : Request) (v : HV)
    (ha : req.uri.authority = none)
    (hv : getFirstH req.headers "host" = some v)
    (hd : toStr v = none) :
    (classify cfg secure req = .notFound ∧ call cfg secure req = .response not_found) ∧
    (∀ req2 : Request, req2.uri.authority = none →
      getFirstH req2.headers "host" = none →
      classify cfg false req2 = .redirect "") := by
  have hh : hostString req = none := by simp [hostString, ha, hv, hd]
  refine ⟨⟨by simp [classify, hh], by simp [call, hh]⟩, ?_⟩
  intro req2 ha2 hn2
  have hh2 : hostString req2 = some "" := by simp [hostString, ha2, hn2]
  simp [classify, hh2]

/-- C3 witness: the undecodable-`Host` request is NotFound on the HTTPS
port, and the host-less request redirects on the HTTP port. -/
theorem C3_witness :
    (classify wcfg true badHostReq = .notFound ∧
      call wcfg true badHostReq = .response not_found) ∧
    classify wcfg false noHostReq = .redirect "" :=
  ⟨(C3_undecodable_notFound wcfg true badHostReq [200] rfl (by decide)
      (by decide)).1,
   (C3_undecodable_notFound wcfg true badHostReq [200] rfl (by decide)
      (by decide)).2 noHostReq rfl (by decide)⟩

/-- Forward-rewrite example input: hop-by-hop headers and two cookies. -/
def wfwdReq : Request :=
  { method := "GET", uri := ⟨none, some "/a"⟩, version := .h2,
    headers := [("connection", strBytes "keep-alive"),
                ("upgrade", strBytes "websocket"),
                ("cookie", strBytes "a=1"),
                ("cookie", strBytes "b=2")],
    body := .incoming }

/-- Outbound request produced by the forward rewriting of `wfwdReq`. -/
def wfwdOut : Request :=
  { method := "GET", uri := ⟨none, some "/a"⟩, version := .http11,
    headers := [("host", strBytes "example.com"),
                ("cookie", strBytes "a=1; b=2")],
    body := .incoming }

/-- Upgrade-rewrite example input. -/
def wupReq : Request :=
  { method := "GET", uri := ⟨none, some "/ws"⟩, version := .http11,
    headers := [("host", strBytes "example.com"),
                ("upgrade", strBytes "websocket"),
                ("keep-alive", strBytes "timeout=5"),
                ("cookie", strBytes "a=1")],
    body := .incoming }

/-- Outbound request produced by the upgrade rewriting of `wupReq`. -/
def wupOut : Request :=
  { method := "GET", uri := ⟨none, some "/ws"⟩, version := .http11,
    headers := [("upgrade", strBytes "websocket"),
                ("connection", strBytes "Upgrade"),
                ("host", strBytes "example.com"),
                ("cookie", strBytes "a=1")],
    body := .empty }

/-- C4: every outbound request produced by the Forward rewriting carries
no `Connection`, `Keep-Alive` or `Upgrade` header, its version is forced
to HTTP/1.1, and its URI retains only the path-and-query of the original
request. -/
theorem C4_forward_strips_hop_by_hop (req : Request) (host : String) (out : Request)
    (h : forwardRewrite req host = some out) :
    getAllH out.headers "connection" = [] ∧
    getAllH out.headers "keep-alive" = [] ∧
    getAllH out.headers "upgrade" = [] ∧
    out.version = .http11 ∧
    out.uri = ⟨none, req.uri.pathAndQuery⟩ := by
  cases hpq : req.uri.pathAndQuery with
  | none =>
    rw [forwardRewrite, hpq] at h
    cases h
  | some pq =>
    rw [forwardRewrite, hpq] at h
    injection h with h
    subst h
    refine ⟨?_, ?_, ?_, rfl, rfl⟩
    · rw [getAllH_merge_cookie_ne _ (by decide), getAllH_hostRewrite_ne _ _ (by decide),
        getAllH_removeH_ne _ (by decide), getAllH_removeH_self _ (by decide)]
    · rw [getAllH_merge_cookie_ne _ (by decide), getAllH_hostRewrite_ne _ _ (by decide),
        getAllH_removeH_ne _ (by decide), getAllH_removeH_ne _ (by decide),
        getAllH_removeH_self _ (by decide)]
    · rw [getAllH_merge_cookie_ne _ (by decide), getAllH_hostRewrite_ne _ _ (by decide),
        getAllH_removeH_self _ (by decide)]

/-- C4 witness: the concrete rewrite of `wfwdReq` carries none of the
hop-by-hop headers. -/
theorem C4_witness :
    getAllH wfwdOut.headers "connection" = [] ∧
    getAllH wfwdOut.headers "keep-alive" = [] ∧
    getAllH wfwdOut.headers "upgrade" = [] ∧
    wfwdOut.version = .http11 ∧
    wfwdOut.uri = ⟨none, wfwdReq.uri.pathAndQuery⟩ :=
  C4_forward_strips_hop_by_hop wfwdReq "example.com" wfwdOut (by decide)

/-- C5: every outbound request produced by the Forward or the Upgrade
rewriting has exactly one `Cookie` header, whose bytes are the original
`Cookie` values joined in their original order by the separator `"; "`
(in particular at most one `Cookie` header remains). -/
theorem C5_cookie_coalescing (req : Request) (host : String) (out : Request)
    (h : forwardRewrite req host = some out ∨ upgradeRewrite req host = some out) :
    getAllH out.headers "cookie" = [joinBytes (getAllH req.headers "cookie")] := by
  cases h with
  | inl h =>
    cases hpq : req.uri.pathAndQuery with
    | none => rw [forwardRewrite, hpq] at h; cases h
    | some pq =>
      rw [forwardRewrite, hpq] at h
      injection h with h
      subst h
      rw [getAllH_merge_cookie_self, getAllH_hostRewrite_ne _ _ (by decide),
        getAllH_removeH_ne _ (by decide), getAllH_removeH_ne _ (by decide),
        getAllH_removeH_ne _ (by decide)]
  | inr h =>
    cases hpq : req.uri.pathAndQuery with
    | none => rw [upgradeRewrite, hpq] at h; cases h
    | some pq =>
      rw [upgradeRewrite, hpq] at h
      injection h with h
      subst h
      rw [getAllH_merge_cookie_self, getAllH_hostRewrite_ne _ _ (by decide),
        getAllH_insertH_ne _ _ (by decide), getAllH_removeH_ne _ (by decide)]

/-- C5 witness: the two cookies of `wfwdReq` are coalesced into the
single value `a=1; b=2`. -/
theorem C5_witness :
    getAllH wfwdOut.headers "cookie" = [joinBytes (getAllH wfwdReq.headers "cookie")] :=
  C5_cookie_coalescing wfwdReq "example.com" wfwdOut (Or.inl (by decide))

/-- C6: every outbound request produced by the Upgrade rewriting carries
`Connection: Upgrade`, no `Keep-Alive` header and an empty body, copies
the inbound method and path-and-query at version HTTP/1.1, has the same
`Host` overwrite as Forward applied, and the response later returned to
the client copies the backend status, version and headers over an empty
body. -/
theorem C6_upgrade_request_response (req : Request) (host : String) (out : Request)
    (h : upgradeRewrite req host = some out) :
    getAllH out.headers "connection" = [strBytes "Upgrade"] ∧
    getAllH out.headers "keep-alive" = [] ∧
    out.body = .empty ∧
    out.method = req.method ∧
    out.version = .http11 ∧
    out.uri = ⟨none, req.uri.pathAndQuery⟩ ∧
    (headerValueOk host = true → getAllH out.headers "host" = [strBytes host]) ∧
    (∀ backend : Response, upgradeResponse backend =
      { status := backend.status, version := backend.version,
        headers := backend.headers, body := .empty }) := by
  cases hpq : req.uri.pathAndQuery with
  | none =>
    rw [upgradeRewrite, hpq] at h
    cases h
  | some pq =>
    rw [upgradeRewrite, hpq] at h
    injection h with h
    subst h
    refine ⟨?_, ?_, rfl, rfl, rfl, rfl, ?_, fun _ => rfl⟩
    · rw [getAllH_merge_cookie_ne _ (by decide), getAllH_hostRewrite_ne _ _ (by decide),
        getAllH_insertH_self _ _ rfl]
    · rw [getAllH_merge_cookie_ne _ (by decide), getAllH_hostRewrite_ne _ _ (by decide),
        getAllH_insertH_ne _ _ (by decide), getAllH_removeH_self _ (by decide)]
    · intro hv
      rw [getAllH_merge_cookie_ne _ (by decide), getAllH_hostRewrite_self _ _ hv]

/-- C6 witness: the concrete upgrade rewrite of `wupReq` carries
`Connection: Upgrade`, no `Keep-Alive`, and an empty body. -/
theorem C6_witness :
    getAllH wupOut.headers "connection" = [strBytes "Upgrade"] ∧
    getAllH wupOut.headers "keep-alive" = [] ∧
    wupOut.body = .empty :=
  ⟨(C6_upgrade_request_response wupReq "example.com" wupOut (by decide)).1,
   (C6_upgrade_request_response wupReq "example.com" wupOut (by decide)).2.1,
   (C6_upgrade_request_response wupReq "example.com" wupOut (by decide)).2.2.1⟩

/-- Plaintext-side example request: `GET /foo?x=1` with
`Host: example.com`. -/
def wredReq : Request :=
  { method := "GET", uri := ⟨none, some "/foo?x=1"⟩, version := .http11,
    headers := [("host", strBytes "example.com")], body := .incoming }

/-- C7: every request on the HTTP port with a derivable host (whose
assembled `Location` is a valid header value) is answered with a 301
response carrying an empty body and a single `Location` header equal to
`"https://" + host + path_and_query`, the path-and-query defaulting to
the empty string. -/
theorem C7_plaintext_redirect (cfg : DynamicConfig) (req : Request) (host : String)
    (hh : hostString req = some host)
    (hv : headerValueOk (redirectLocation req host) = true) :
    call cfg false req = .response
      { status := 301, version := .http11,
        headers := [("location", strBytes (redirectLocation req host))],
        body := .empty } ∧
    redirectLocation req host = "https://" ++ host ++ (req.uri.pathAndQuery.getD "") := by
  refine ⟨?_, rfl⟩
  simp [call, hh, redirect_to_https, hv]

/-- C7 witness: the end-to-end plaintext redirect of the spec's first
scenario, with `Location: https://example.com/foo?x=1`. -/
theorem C7_witness :
    call wcfg false wredReq = .response
      { status := 301, version := .http11,
        headers := [("location", strBytes (redirectLocation wredReq "example.com"))],
        body := .empty } ∧
    redirectLocation wredReq "example.com" =
      "https://" ++ "example.com" ++ (wredReq.uri.pathAndQuery.getD "") :=
  C7_plaintext_redirect wcfg wredReq "example.com" (by decide) (by decide)

/-- C8 counterexample: starting from the snapshot produced by load 0, a
reload attempt numbered 1 whose TLS rebuild fails does change the live
snapshot — the new routing table has already been committed. -/
theorem C8_counterexample :
    reloadFinal ⟨0, 0⟩ 1 .tlsFail ≠ ⟨0, 0⟩ ∧
    (reloadFinal ⟨0, 0⟩ 1 .tlsFail).dynLoad = 1 := by
  decide

/-- C8 (amended): when loading the new DynamicConfig fails, the live
snapshot is unchanged in full; when the TLS rebuild fails, the TLS
credentials are unchanged but the routing table has already been replaced
by the new load's. -/
theorem C8_reload_failure_keeps (s : SnapshotState) (n : Nat) :
    reloadFinal s n .dynFail = s ∧
    reloadFinal s n .tlsFail = ⟨n, s.tlsLoad⟩ ∧
    (reloadFinal s n .tlsFail).tlsLoad = s.tlsLoad := by
  refine ⟨rfl, rfl, rfl⟩

/-- C9 counterexample: after a reload whose TLS rebuild fails, the live
snapshot permanently pairs the routing table of load 1 with the
credentials of load 0; the same mixed state is also observable between
the two publication steps of a successful reload. -/
theorem C9_counterexample :
    (reloadFinal ⟨0, 0⟩ 1 .tlsFail).dynLoad ≠ (reloadFinal ⟨0, 0⟩ 1 .tlsFail).tlsLoad ∧
    (⟨1, 0⟩ : SnapshotState) ∈ reloadStates ⟨0, 0⟩ 1 .success := by
  decide

/-- C9 (amended): a fully successful reload ends in a consistent
snapshot, but while a reload attempt numbered `n` runs — and permanently
after one whose TLS rebuild fails — readers can observe the mixed state
pairing load `n`'s routing table with the previous credentials; every
observable state is the old snapshot, that mixed state, or the fully new
snapshot. -/
theorem C9_reload_observable_states (s : SnapshotState) (n : Nat) (o : ReloadOutcome)
    (t : SnapshotState) (ht : t ∈ reloadStates s n o) :
    (t = s ∨ t = ⟨n, s.tlsLoad⟩ ∨ t = ⟨n, n⟩) ∧
    reloadFinal s n .success = ⟨n, n⟩ := by
  cases o <;> simp [reloadStates, reloadFinal] at ht ⊢ <;> tauto

/-- C9 witness: the mixed state of the tlsFail trace is among the three
admissible states. -/
theorem C9_witness :
    ((⟨1, 0⟩ : SnapshotState) = ⟨0, 0⟩ ∨ (⟨1, 0⟩ : SnapshotState) = ⟨1, 0⟩ ∨
      (⟨1, 0⟩ : SnapshotState) = ⟨1, 1⟩) ∧
    reloadFinal ⟨0, 0⟩ 1 .success = ⟨1, 1⟩ :=
  C9_reload_observable_states ⟨0, 0⟩ 1 .tlsFail ⟨1, 0⟩ (by decide)

/-- Authority-form request (as in CONNECT): a URI with an authority but
no path-and-query. -/
def wauthReq : Request :=
  { method := "CONNECT", uri := ⟨some "example.com:443", none⟩, version := .http11,
    headers := [], body := .incoming }

/-- C10: when a request that classifies as Forward or Upgrade has no
path-and-query in its URI, both rewriting steps hit the `unwrap` panic
(modelled as `none`), and `Proxy::call` panics instead of producing a
response. -/
theorem C10_panic_without_path (cfg : DynamicConfig) (req : Request) (host : String)
    (route : RouteConfig)
    (hh : hostString req = some host)
    (hr : findRoute cfg host = some route)
    (hp : req.uri.pathAndQuery = none) :
    call cfg true req = .panicked ∧
    forwardRewrite req host = none ∧
    upgradeRewrite req host = none := by
  have hf : forwardRewrite req host = none := by rw [forwardRewrite, hp]
  have hu : upgradeRewrite req host = none := by rw [upgradeRewrite, hp]
  refine ⟨?_, hf, hu⟩
  cases hav : allEqualValue (getAllH req.headers "upgrade") with
  | none => simp [call, hh, hr, hav, hf]
  | some v =>
    cases hws : (v == strBytes "websocket") with
    | true => simp [call, hh, hr, hav, hws, hu]
    | false => simp [call, hh, hr, hav, hws, hf]

/-- C10 witness: an authority-form request matching the catch-all route
panics in `Proxy::call`. -/
theorem C10_witness :
    call wcfg2 true wauthReq = .panicked ∧
    forwardRewrite wauthReq "example.com:443" = none ∧
    upgradeRewrite wauthReq "example.com:443" = none :=
  C10_panic_without_path wcfg2 wauthReq "example.com:443" ⟨"*", "127.0.0.1:9000"⟩
    rfl (by decide) rfl
